import Mathlib

/-!
Shallow embedding of the database readiness protocol implemented in
`src/src-tauri/src/main.rs` of the alduin repository: storage-path
resolution with ordered fallbacks, existence polling with two wait
windows, a bounded connection retry loop with increasing backoff, and
the single publication of the pool handle into managed state.

The setup closure is modelled as a function from an ambient `Env`
(platform config directory, HOME variable, filesystem as observed after
a given amount of slept time, and the oracle deciding each connection
attempt) to the ordered trace of observable events it emits plus its
final outcome (normal return, error return, or panic).
-/

/-- Filesystem paths, modelled as plain strings. -/
abbrev FsPath := String

/-- Rust `PathBuf::join`: appending one path component with a separator. -/
def pathJoin (a b : FsPath) : FsPath := a ++ "/" ++ b

/-- Rust Debug formatting of a path value, which wraps it in quotes. -/
def pathDebug (p : FsPath) : String := "\"" ++ p ++ "\""

/-- A raw environment-variable value: either valid Unicode or not. -/
inductive EnvVarValue
  | unicode (s : String)
  | nonUnicode
deriving DecidableEq

/-- Rust `std::env::VarError`. -/
inductive VarError
  | notPresent
  | notUnicode
deriving DecidableEq

/-- Rust `std::env::var`: yields the value only when the variable is both set
and valid Unicode. -/
def envVar : Option EnvVarValue → Except VarError String
  | none => .error .notPresent
  | some .nonUnicode => .error .notUnicode
  | some (.unicode s) => .ok s

/-- The sqlx `SqliteConnectOptions`, restricted to the fields this program can
influence: the target filename and the create-if-missing flag. -/
structure SqliteConnectOptions where
  filename : FsPath
  create_if_missing : Bool
deriving DecidableEq

/-- Builder `SqliteConnectOptions::new()`: default options; the
`create_if_missing` flag defaults to off. -/
def SqliteConnectOptions.new : SqliteConnectOptions :=
  { filename := "", create_if_missing := false }

/-- Builder method `SqliteConnectOptions::filename`: builder setting the database file
(line 117). -/
def SqliteConnectOptions.set_filename (o : SqliteConnectOptions) (p : FsPath) :
    SqliteConnectOptions :=
  { o with filename := p }

/-- The type `sqlx::Error`, as the two shapes the code distinguishes at lines
157-165: a database-level error carrying a code and message, or any
other driver error. -/
inductive SqlxError
  | database (code : Option String) (message : String)
  | other (debug : String)
deriving DecidableEq

/-- Display rendering of a connection error, as interpolated into the
log and panic messages. -/
def SqlxError.display : SqlxError → String
  | .database _ msg => "error returned from database: " ++ msg
  | .other d => d

/-- Rust Debug formatting of an optional error code. -/
def optDebug : Option String → String
  | none => "None"
  | some c => "Some(\"" ++ c ++ "\")"

/-- Observable steps of the setup routine: diagnostic logging,
filesystem queries (tagged with the elapsed slept time at which they
happen), timed suspensions, connection attempts, and the single
publication of the pool handle into managed state. -/
inductive Event
  | log (msg : String)
  | checkDir (t : Nat) (b : Bool)
  | checkExists (t : Nat) (b : Bool)
  | sleep (ms : Nat)
  | connectAttempt (k : Nat) (opts : SqliteConnectOptions)
  | publish
deriving DecidableEq

/-- Result of the retry loop: the pool handle (tagged with the winning
attempt number) or the panic message that aborts the process. -/
inductive ConnResult
  | pool (attempt : Nat)
  | panicked (msg : String)
deriving DecidableEq

/-- Result of the whole setup closure: normal return, an error return
(the variant its surrounding Result type offers but the code never
constructs), or a panic. -/
inductive Outcome
  | ok
  | err (msg : String)
  | panicked (msg : String)
deriving DecidableEq

/-- The ambient world the setup routine runs against: the optional
platform config directory, the HOME variable, the filesystem as
observed after `t` milliseconds of accumulated sleeping (file and
directory existence, file metadata), and the oracle deciding the `k`-th
connection attempt made with given options (`none` means success). -/
structure Env where
  app_config_dir : Option FsPath
  home : Option EnvVarValue
  file_exists : Nat → Bool
  dir_exists : Nat → Bool
  metadata : Nat → Option (Nat × Bool)
  connect : SqliteConnectOptions → Nat → Option SqlxError

/-- Lines 83-94: resolve the application data directory by ordered
fallbacks — the platform config directory, then `$HOME/.config/io.stouder.alduin`,
then `./data` — returning the chosen path and the log emitted. -/
def resolve_app_dir (env : Env) : FsPath × List Event :=
  match env.app_config_dir with
  | some native_dir =>
      (native_dir,
       [.log ("✅ Using Tauri app config directory: " ++ pathDebug native_dir)])
  | none =>
      match envVar env.home with
      | .ok home =>
          let fallback_dir := pathJoin home ".config/io.stouder.alduin"
          (fallback_dir,
           [.log ("⚠️  Falling back to HOME/.config/io.stouder.alduin: " ++ pathDebug fallback_dir)])
      | .error _ =>
          let emergency_dir : FsPath := "./data"
          (emergency_dir,
           [.log ("🚨 Emergency fallback to ./data: " ++ pathDebug emergency_dir)])

/-- The resolved application directory. -/
def app_dir_of (env : Env) : FsPath := (resolve_app_dir env).1

/-- Line 101: the resolved database file path `app_dir/alduin.db`. -/
def sqlite_path_of (env : Env) : FsPath := pathJoin (app_dir_of env) "alduin.db"

/-- Lines 116-117: the connection options — built from the resolved
database file path only, with no create-if-missing. -/
def connect_options_of (env : Env) : SqliteConnectOptions :=
  SqliteConnectOptions.new.set_filename (sqlite_path_of env)

/-- Lines 79-80: the opening banner. -/
def headerEvents : List Event :=
  [.log "=== ALDUIN DATABASE SETUP DEBUG ===",
   .log "Starting database initialization..."]

/-- Lines 96-113: the diagnostic block after path resolution. The
existence queries happen at elapsed time 0 and are used for logging
only. -/
def diagLogs (env : Env) (ad sp : FsPath) : List Event :=
  [.log ("Plugin config directory: " ++ pathDebug ad),
   .checkDir 0 (env.dir_exists 0),
   .log ("Directory exists: " ++ toString (env.dir_exists 0)),
   .log ("Plugin database path: " ++ pathDebug sp),
   .checkExists 0 (env.file_exists 0),
   .log ("Database file exists: " ++ toString (env.file_exists 0)),
   .checkExists 0 (env.file_exists 0)] ++
  (if env.file_exists 0 then
     match env.metadata 0 with
     | some (len, ro) =>
         [.log ("Database file size: " ++ toString len ++ " bytes"),
          .log ("Database file readonly: " ++ toString ro)]
     | none => []
   else
     [.log "⚠️  Plugin database not yet created, will retry connection..."])

/-- Lines 121-133: one unconditional first wait window (1000 ms), a
re-check, an optional second and longer window (2000 ms), a final
re-check, and the panic when the file still is not there. Returns the
trace plus either the panic message or the elapsed time at which the
connection phase starts. -/
def waitPhase (env : Env) (sp : FsPath) : List Event × Except String Nat :=
  let e1 := env.file_exists 1000
  let ev1 : List Event := [.sleep 1000, .checkExists 1000 e1]
  if e1 then (ev1, .ok 1000)
  else
    let e2 := env.file_exists 3000
    let ev2 := ev1 ++
      [.log "⚠️  Plugin database still not found, waiting longer...",
       .sleep 2000, .checkExists 3000 e2]
    if e2 then (ev2, .ok 3000)
    else
      (ev2 ++ [.log "❌ Plugin database not found after extended wait",
               .log ("❌ Expected location: " ++ pathDebug sp)],
       .error "Plugin database creation failed or path mismatch")

/-- Lines 142-143: log prefix of one connection attempt. -/
def attemptHeader (k max : Nat) (opts : SqliteConnectOptions) : List Event :=
  [.log ("Plugin database connection attempt " ++ toString k ++ "/" ++ toString max),
   .connectAttempt k opts]

/-- Line 146: log emitted when attempt `k` succeeds. -/
def attemptSuccessEvents (k : Nat) : List Event :=
  [.log ("✅ Plugin database connection successful on attempt " ++ toString k)]

/-- Lines 150-165: diagnostics logged when attempt `k` fails at elapsed
time `t` with error `e`; purely observational. -/
def failDiag (env : Env) (k : Nat) (e : SqlxError) (sp : FsPath) (t : Nat) : List Event :=
  [.log ("❌ SQLite connection failed on attempt " ++ toString k ++ ": " ++ e.display),
   .log ("Connection options - filename: " ++ pathDebug sp),
   .log ("Database path: " ++ pathDebug sp),
   .checkDir t (env.dir_exists t),
   .log ("Directory exists: " ++ toString (env.dir_exists t)),
   .checkExists t (env.file_exists t),
   .log ("Database file exists: " ++ toString (env.file_exists t))] ++
  (match e with
   | .database code msg =>
       [.log ("Database error code: " ++ optDebug code),
        .log ("Database error message: " ++ msg)]
   | .other d => [.log ("Non-database error: " ++ d)])

/-- Lines 172-175: the retry notice and the backoff sleep of
`100 * k` ms after failed attempt `k`. -/
def retryEvents (k : Nat) : List Event :=
  [.log ("Retrying in " ++ toString (100 * k) ++ "ms..."),
   .sleep (100 * k)]

/-- Lines 140-178: the bounded connection retry loop.
`connection_attempts` counts attempts already made; `t` is the elapsed
slept time in milliseconds. Each iteration makes one attempt; success
breaks out with the pool, a failure with no attempts remaining panics,
and otherwise the loop sleeps the backoff delay and retries. -/
def connectLoop (env : Env) (opts : SqliteConnectOptions) (sp : FsPath)
    (max_attempts connection_attempts t : Nat) : List Event × ConnResult :=
  let attempts := connection_attempts + 1
  match env.connect opts attempts with
  | none =>
      (attemptHeader attempts max_attempts opts ++ attemptSuccessEvents attempts,
       .pool attempts)
  | some e =>
      if h : attempts ≥ max_attempts then
        (attemptHeader attempts max_attempts opts ++ failDiag env attempts e sp t ++
           [.log ("❌ All connection attempts failed. Final error: " ++ e.display)],
         .panicked ("Failed to connect to SQLite after " ++ toString max_attempts ++
           " attempts: " ++ e.display))
      else
        let rest := connectLoop env opts sp max_attempts attempts (t + 100 * attempts)
        (attemptHeader attempts max_attempts opts ++ failDiag env attempts e sp t ++
           retryEvents attempts ++ rest.1,
         rest.2)
termination_by max_attempts - connection_attempts
decreasing_by omega

/-- Lines 180-184: the success tail — two logs, the single `app.manage`
publication of the handle into managed state, and two closing logs. -/
def publishEvents : List Event :=
  [.log "✅ Plugin database connection established!",
   .log "Registering unified database with app state...",
   .publish,
   .log "✅ Unified database registered with app state",
   .log "=== UNIFIED DATABASE SETUP COMPLETE ==="]

/-- Everything the setup closure emits before the first wait window:
banner, path-resolution log, the diagnostic block, and the waiting
notice of line 120. -/
def preQuiet (env : Env) : List Event :=
  headerEvents ++ (resolve_app_dir env).2 ++
    diagLogs env (app_dir_of env) (sqlite_path_of env) ++
    [Event.log "Waiting for plugin initialization and database creation..."]

/-- Lines 75-188: the whole setup closure — resolve the directory, log
diagnostics, build the connection options, run the wait phase, then the
connection loop with `max_attempts = 3`, and on success publish the
handle and return normally. -/
def setup (env : Env) : List Event × Outcome :=
  let sp := sqlite_path_of env
  let w := waitPhase env sp
  match w.2 with
  | .error m => (preQuiet env ++ w.1, .panicked m)
  | .ok t =>
      let c := connectLoop env (connect_options_of env) sp 3 0 t
      let pre := preQuiet env ++ w.1 ++ [Event.log "Connecting to plugin database..."]
      match c.2 with
      | .panicked m => (pre ++ c.1, .panicked m)
      | .pool _ => (pre ++ c.1 ++ publishEvents, .ok)

/-- An event that is purely observational: a log line or a filesystem
query. Sleeps, connection attempts and the publish are not quiet. -/
def Event.quiet : Event → Bool
  | .log _ => true
  | .checkDir _ _ => true
  | .checkExists _ _ => true
  | .sleep _ => false
  | .connectAttempt _ _ => false
  | .publish => false

/-- The duration of a sleep event. -/
def Event.sleepMs : Event → Option Nat
  | .sleep ms => some ms
  | _ => none

/-- The attempt number of a connection-attempt event. -/
def Event.attemptNum : Event → Option Nat
  | .connectAttempt k _ => some k
  | _ => none

/-- Whether an event is a sleep. -/
def Event.isSleep (e : Event) : Bool := e.sleepMs.isSome

/-- Whether an event is a connection attempt. -/
def Event.isAttempt (e : Event) : Bool := e.attemptNum.isSome

/-- The sleep durations occurring in a trace, in order. -/
def sleepsOf (l : List Event) : List Nat := l.filterMap Event.sleepMs

/-- The connection-attempt numbers occurring in a run, in order. -/
def attemptsOf (env : Env) : List Nat := (setup env).1.filterMap Event.attemptNum

/-- The retry delays of a run: the sleeps occurring from the first
connection attempt onward (the two wait windows precede all attempts). -/
def retryDelays (env : Env) : List Nat :=
  sleepsOf ((setup env).1.dropWhile (fun e => !e.isAttempt))

/-- The control-relevant part of a trace: sleeps, connection attempts
and the publish, with the purely observational events erased. -/
def controlTrace (l : List Event) : List Event := l.filter (fun e => !e.quiet)

/-! ### Trace helper lemmas -/

/-- The trace of the wait phase when the file never shows up. -/
def waitFailTrace (sp : FsPath) : List Event :=
  [.sleep 1000, .checkExists 1000 false,
   .log "⚠️  Plugin database still not found, waiting longer...",
   .sleep 2000, .checkExists 3000 false,
   .log "❌ Plugin database not found after extended wait",
   .log ("❌ Expected location: " ++ pathDebug sp)]

/-! ### Concrete worlds used to instantiate the theorems -/

/-- A world where the platform config directory resolves, the database
file is present throughout, and the first connection attempt succeeds. -/
def envReady : Env :=
  { app_config_dir := some "/cfg", home := none,
    file_exists := fun _ => true, dir_exists := fun _ => true,
    metadata := fun _ => some (4096, false),
    connect := fun _ _ => none }

/-- The world `envReady` with a different first existence check and metadata; the
filesystem agrees with `envReady` at every positive elapsed time. -/
def envReadyAlt : Env :=
  { app_config_dir := some "/cfg", home := none,
    file_exists := fun t => decide (0 < t), dir_exists := fun _ => true,
    metadata := fun _ => none,
    connect := fun _ _ => none }

/-- A world where the database file never appears. -/
def envNever : Env :=
  { app_config_dir := some "/cfg", home := none,
    file_exists := fun _ => false, dir_exists := fun _ => false,
    metadata := fun _ => none,
    connect := fun _ _ => none }

/-- A world where every connection attempt fails with a driver error. -/
def envFailAll : Env :=
  { app_config_dir := some "/cfg", home := none,
    file_exists := fun _ => true, dir_exists := fun _ => true,
    metadata := fun _ => some (4096, false),
    connect := fun _ _ => some (.other "unable to open database file") }

/-- A world where the first attempt fails with a database-level error
and the second succeeds. -/
def envFlaky : Env :=
  { app_config_dir := some "/cfg", home := none,
    file_exists := fun _ => true, dir_exists := fun _ => true,
    metadata := fun _ => some (4096, false),
    connect := fun _ k =>
      if k = 1 then some (.database (some "14") "unable to open database file") else none }

/-- A world with no platform config directory and HOME set to a value
that is not valid Unicode. -/
def envNonUnicodeHome : Env :=
  { app_config_dir := none, home := some .nonUnicode,
    file_exists := fun _ => true, dir_exists := fun _ => true,
    metadata := fun _ => none,
    connect := fun _ _ => none }

/-- The error produced by the first attempt in the flaky world. -/
def flakyErr : SqlxError := .database (some "14") "unable to open database file"

/-- A trace consisting only of observational events. -/
def quietL (l : List Event) : Prop := ∀ e ∈ l, e.quiet = true

lemma quietL_append {l₁ l₂ : List Event} (h₁ : quietL l₁) (h₂ : quietL l₂) :
    quietL (l₁ ++ l₂) := by
  intro e he
  rcases List.mem_append.1 he with h | h
  · exact h₁ e h
  · exact h₂ e h

lemma sleepsOf_quiet {l : List Event} (h : quietL l) : sleepsOf l = [] := by
  induction l with
  | nil => rfl
  | cons a l ih =>
      have ha := h a (List.mem_cons_self a l)
      have hl : quietL l := fun e he => h e (List.mem_cons_of_mem _ he)
      cases a <;> simp_all [sleepsOf, Event.sleepMs, Event.quiet]

lemma attempts_quiet {l : List Event} (h : quietL l) :
    l.filterMap Event.attemptNum = [] := by
  induction l with
  | nil => rfl
  | cons a l ih =>
      have ha := h a (List.mem_cons_self a l)
      have hl : quietL l := fun e he => h e (List.mem_cons_of_mem _ he)
      cases a <;> simp_all [Event.attemptNum, Event.quiet]

lemma publish_not_mem_quiet {l : List Event} (h : quietL l) : Event.publish ∉ l := by
  intro hm
  simpa [Event.quiet] using h _ hm

lemma controlTrace_quiet {l : List Event} (h : quietL l) : controlTrace l = [] := by
  induction l with
  | nil => rfl
  | cons a l ih =>
      have ha := h a (List.mem_cons_self a l)
      have hl : quietL l := fun e he => h e (List.mem_cons_of_mem _ he)
      simp_all [controlTrace]

lemma controlTrace_append (l₁ l₂ : List Event) :
    controlTrace (l₁ ++ l₂) = controlTrace l₁ ++ controlTrace l₂ := by
  simp [controlTrace]

lemma quiet_headerEvents : quietL headerEvents := by
  intro e he
  simp [headerEvents] at he
  rcases he with h | h <;> subst h <;> rfl

lemma quiet_resolve (env : Env) : quietL (resolve_app_dir env).2 := by
  intro e he
  unfold resolve_app_dir at he
  cases hacd : env.app_config_dir with
  | some d => rw [hacd] at he; simp at he; subst he; rfl
  | none =>
      rw [hacd] at he
      cases hv : envVar env.home with
      | ok s => rw [hv] at he; simp at he; subst he; rfl
      | error err => rw [hv] at he; simp at he; subst he; rfl

lemma quiet_diagLogs (env : Env) (ad sp : FsPath) : quietL (diagLogs env ad sp) := by
  intro e he
  unfold diagLogs at he
  rcases List.mem_append.1 he with h | h
  · simp at h
    rcases h with h | h | h | h | h | h | h <;> subst h <;> rfl
  · by_cases hf : env.file_exists 0 = true
    · rw [if_pos hf] at h
      cases hm : env.metadata 0 with
      | none => rw [hm] at h; simp at h
      | some p =>
          rw [hm] at h
          rcases p with ⟨len, ro⟩
          simp at h
          rcases h with h | h <;> subst h <;> rfl
    · rw [if_neg hf] at h
      simp at h
      subst h
      rfl

lemma quiet_failDiag (env : Env) (k : Nat) (e : SqlxError) (sp : FsPath) (t : Nat) :
    quietL (failDiag env k e sp t) := by
  intro x hx
  unfold failDiag at hx
  rcases List.mem_append.1 hx with h | h
  · simp at h
    rcases h with h | h | h | h | h | h | h <;> subst h <;> rfl
  · rcases e with ⟨code, msg⟩ | d
    · simp at h
      rcases h with h | h <;> subst h <;> rfl
    · simp at h
      subst h
      rfl

lemma quiet_preQuiet (env : Env) : quietL (preQuiet env) := by
  unfold preQuiet
  refine quietL_append (quietL_append (quietL_append quiet_headerEvents (quiet_resolve env)) (quiet_diagLogs env _ _)) ?_
  intro e he
  simp at he
  subst he
  rfl

/-! ### Closed forms of the wait phase -/

lemma waitPhase_tt {env : Env} (sp : FsPath) (h1 : env.file_exists 1000 = true) :
    waitPhase env sp = ([.sleep 1000, .checkExists 1000 true], .ok 1000) := by
  simp [waitPhase, h1]

lemma waitPhase_ft {env : Env} (sp : FsPath) (h1 : env.file_exists 1000 = false)
    (h2 : env.file_exists 3000 = true) :
    waitPhase env sp =
      ([.sleep 1000, .checkExists 1000 false,
        .log "⚠️  Plugin database still not found, waiting longer...",
        .sleep 2000, .checkExists 3000 true], .ok 3000) := by
  simp [waitPhase, h1, h2]

lemma waitPhase_ff {env : Env} (sp : FsPath) (h1 : env.file_exists 1000 = false)
    (h2 : env.file_exists 3000 = false) :
    waitPhase env sp =
      (waitFailTrace sp, .error "Plugin database creation failed or path mismatch") := by
  simp [waitPhase, waitFailTrace, h1, h2]

/-! ### Closed forms of the connection loop at the bound used by `setup` -/

lemma connectLoop_succ1 {env : Env} (opts : SqliteConnectOptions) (sp : FsPath) (t : Nat)
    (h1 : env.connect opts 1 = none) :
    connectLoop env opts sp 3 0 t =
      (attemptHeader 1 3 opts ++ attemptSuccessEvents 1, .pool 1) := by
  rw [connectLoop]
  simp [h1]

lemma connectLoop_succ2 {env : Env} (opts : SqliteConnectOptions) (sp : FsPath) (t : Nat)
    {e1 : SqlxError} (h1 : env.connect opts 1 = some e1) (h2 : env.connect opts 2 = none) :
    connectLoop env opts sp 3 0 t =
      (attemptHeader 1 3 opts ++ failDiag env 1 e1 sp t ++ retryEvents 1 ++
        (attemptHeader 2 3 opts ++ attemptSuccessEvents 2), .pool 2) := by
  rw [connectLoop]
  simp only [h1]
  rw [connectLoop]
  simp [h1, h2]

lemma connectLoop_succ3 {env : Env} (opts : SqliteConnectOptions) (sp : FsPath) (t : Nat)
    {e1 e2 : SqlxError} (h1 : env.connect opts 1 = some e1) (h2 : env.connect opts 2 = some e2)
    (h3 : env.connect opts 3 = none) :
    connectLoop env opts sp 3 0 t =
      (attemptHeader 1 3 opts ++ failDiag env 1 e1 sp t ++ retryEvents 1 ++
        (attemptHeader 2 3 opts ++ failDiag env 2 e2 sp (t + 100 * 1) ++ retryEvents 2 ++
          (attemptHeader 3 3 opts ++ attemptSuccessEvents 3)), .pool 3) := by
  rw [connectLoop]
  simp only [h1]
  rw [connectLoop]
  simp only [h2]
  rw [connectLoop]
  simp [h1, h2, h3]

lemma connectLoop_fail {env : Env} (opts : SqliteConnectOptions) (sp : FsPath) (t : Nat)
    {e1 e2 e3 : SqlxError} (h1 : env.connect opts 1 = some e1)
    (h2 : env.connect opts 2 = some e2) (h3 : env.connect opts 3 = some e3) :
    connectLoop env opts sp 3 0 t =
      (attemptHeader 1 3 opts ++ failDiag env 1 e1 sp t ++ retryEvents 1 ++
        (attemptHeader 2 3 opts ++ failDiag env 2 e2 sp (t + 100 * 1) ++ retryEvents 2 ++
          (attemptHeader 3 3 opts ++ failDiag env 3 e3 sp (t + 100 * 1 + 100 * 2) ++
            [.log ("❌ All connection attempts failed. Final error: " ++ e3.display)])),
       .panicked ("Failed to connect to SQLite after " ++ toString 3 ++ " attempts: " ++
         e3.display)) := by
  rw [connectLoop]
  simp only [h1]
  rw [connectLoop]
  simp only [h2]
  rw [connectLoop]
  simp [h1, h2, h3]

/-! ### Closed forms of the whole setup routine -/

lemma setup_wait_fail {env : Env} (h1 : env.file_exists 1000 = false)
    (h2 : env.file_exists 3000 = false) :
    setup env = (preQuiet env ++ waitFailTrace (sqlite_path_of env),
      .panicked "Plugin database creation failed or path mismatch") := by
  have hw := waitPhase_ff (sqlite_path_of env) h1 h2
  simp only [setup, hw]

lemma setup_reached_pool {env : Env} {t k : Nat}
    (hw : (waitPhase env (sqlite_path_of env)).2 = .ok t)
    (hc : (connectLoop env (connect_options_of env) (sqlite_path_of env) 3 0 t).2 = .pool k) :
    setup env = (preQuiet env ++ (waitPhase env (sqlite_path_of env)).1 ++
      Event.log "Connecting to plugin database..." ::
        (connectLoop env (connect_options_of env) (sqlite_path_of env) 3 0 t).1 ++
      publishEvents, .ok) := by
  simp only [setup, hw, hc]
  simp [List.append_assoc]

lemma setup_reached_panic {env : Env} {t : Nat} {m : String}
    (hw : (waitPhase env (sqlite_path_of env)).2 = .ok t)
    (hc : (connectLoop env (connect_options_of env) (sqlite_path_of env) 3 0 t).2 =
      .panicked m) :
    setup env = (preQuiet env ++ (waitPhase env (sqlite_path_of env)).1 ++
      Event.log "Connecting to plugin database..." ::
        (connectLoop env (connect_options_of env) (sqlite_path_of env) 3 0 t).1,
      .panicked m) := by
  simp only [setup, hw, hc]
  simp [List.append_assoc]

/-- Splitting a list at an element that occurs exactly once (it occurs
in neither surrounding part of the canonical split) is unique. -/
lemma split_unique {α : Type} {a : α} :
    ∀ (B l₁ : List α) {C l₂ : List α}, B ++ a :: C = l₁ ++ a :: l₂ → a ∉ B → a ∉ C →
      B = l₁ ∧ C = l₂ := by
  intro B
  induction B with
  | nil =>
      intro l₁ C l₂ h hB hC
      cases l₁ with
      | nil =>
          simp at h
          exact ⟨rfl, h⟩
      | cons x xs =>
          simp at h
          exact absurd (by rw [h.2]; simp [h.1]) hC
  | cons b bs ih =>
      intro l₁ C l₂ h hB hC
      cases l₁ with
      | nil =>
          simp at h
          exact absurd (by simp [h.1]) hB
      | cons x xs =>
          simp at h
          obtain ⟨hbx, hrest⟩ := h
          have hBs : a ∉ bs := fun hm => hB (List.mem_cons_of_mem _ hm)
          obtain ⟨hb, hc⟩ := ih xs hrest hBs hC
          exact ⟨by rw [hbx, hb], hc⟩

/-! ### Observable content of the trace pieces -/

lemma attemptNum_attemptHeader (k max : Nat) (opts : SqliteConnectOptions) :
    (attemptHeader k max opts).filterMap Event.attemptNum = [k] := rfl

lemma attemptNum_retryEvents (k : Nat) :
    (retryEvents k).filterMap Event.attemptNum = [] := rfl

lemma attemptNum_attemptSuccessEvents (k : Nat) :
    (attemptSuccessEvents k).filterMap Event.attemptNum = [] := rfl

lemma attemptNum_publishEvents :
    publishEvents.filterMap Event.attemptNum = [] := rfl

lemma attemptNum_waitFailTrace (sp : FsPath) :
    (waitFailTrace sp).filterMap Event.attemptNum = [] := rfl

lemma attemptNum_failDiag (env : Env) (k : Nat) (e : SqlxError) (sp : FsPath) (t : Nat) :
    (failDiag env k e sp t).filterMap Event.attemptNum = [] :=
  attempts_quiet (quiet_failDiag env k e sp t)

lemma sleepMs_attemptHeader (k max : Nat) (opts : SqliteConnectOptions) :
    (attemptHeader k max opts).filterMap Event.sleepMs = [] := rfl

lemma sleepMs_retryEvents (k : Nat) :
    (retryEvents k).filterMap Event.sleepMs = [100 * k] := rfl

lemma sleepMs_attemptSuccessEvents (k : Nat) :
    (attemptSuccessEvents k).filterMap Event.sleepMs = [] := rfl

lemma sleepMs_publishEvents :
    publishEvents.filterMap Event.sleepMs = [] := rfl

lemma sleepMs_failDiag (env : Env) (k : Nat) (e : SqlxError) (sp : FsPath) (t : Nat) :
    (failDiag env k e sp t).filterMap Event.sleepMs = [] :=
  sleepsOf_quiet (quiet_failDiag env k e sp t)

lemma publish_not_mem_attemptHeader (k max : Nat) (opts : SqliteConnectOptions) :
    Event.publish ∉ attemptHeader k max opts := by simp [attemptHeader]

lemma publish_not_mem_retryEvents (k : Nat) : Event.publish ∉ retryEvents k := by
  simp [retryEvents]

lemma publish_not_mem_attemptSuccessEvents (k : Nat) :
    Event.publish ∉ attemptSuccessEvents k := by simp [attemptSuccessEvents]

lemma publish_not_mem_waitFailTrace (sp : FsPath) :
    Event.publish ∉ waitFailTrace sp := by simp [waitFailTrace]

lemma publish_not_mem_failDiag (env : Env) (k : Nat) (e : SqlxError) (sp : FsPath) (t : Nat) :
    Event.publish ∉ failDiag env k e sp t :=
  publish_not_mem_quiet (quiet_failDiag env k e sp t)

lemma isSleep_false_of_quiet {e : Event} (h : e.quiet = true) : e.isSleep = false := by
  cases e <;> simp_all [Event.quiet, Event.isSleep, Event.sleepMs]

/-! ### Further helper lemmas -/

/-- The resolver `resolve_app_dir` depends only on the config-directory and HOME
fields of the environment. -/
lemma resolve_congr {env env2 : Env} (ha : env2.app_config_dir = env.app_config_dir)
    (hh : env2.home = env.home) : resolve_app_dir env2 = resolve_app_dir env := by
  unfold resolve_app_dir
  rw [ha, hh]

/-- The setup routine either returns normally or panics; it never
returns the error variant of its result type. -/
lemma setup_outcome (env : Env) :
    (setup env).2 = .ok ∨ ∃ m, (setup env).2 = .panicked m := by
  cases hw : (waitPhase env (sqlite_path_of env)).2 with
  | error m => exact Or.inr ⟨m, by simp [setup, hw]⟩
  | ok t =>
      cases hc : (connectLoop env (connect_options_of env) (sqlite_path_of env) 3 0 t).2 with
      | pool k => exact Or.inl (by simp [setup, hw, hc])
      | panicked m => exact Or.inr ⟨m, by simp [setup, hw, hc]⟩

/-! ### C5 -/

/-- C5: the StorageLocator tries, in strict order, the platform-native
config directory, then HOME/.config/io.stouder.alduin when the HOME
variable yields a value, then ./data; the first computable option wins,
and the choice is independent of the filesystem state. -/
theorem C5_storage_locator_strict_order (env : Env) :
    (∀ d, env.app_config_dir = some d → app_dir_of env = d) ∧
    (∀ h, env.app_config_dir = none → envVar env.home = .ok h →
      app_dir_of env = pathJoin h ".config/io.stouder.alduin") ∧
    (∀ e, env.app_config_dir = none → envVar env.home = .error e →
      app_dir_of env = "./data") ∧
    (∀ fe de md cn,
      app_dir_of { env with file_exists := fe, dir_exists := de,
                            metadata := md, connect := cn } = app_dir_of env) := by
  refine ⟨?_, ?_, ?_, ?_⟩
  · intro d hd
    unfold app_dir_of resolve_app_dir
    rw [hd]
  · intro h hacd hv
    unfold app_dir_of resolve_app_dir
    rw [hacd, hv]
  · intro e hacd hv
    unfold app_dir_of resolve_app_dir
    rw [hacd, hv]
  · intro fe de md cn
    rfl

/-- Witness for C5 at a concrete world: when the platform config
directory is available it is chosen. -/
theorem C5_storage_locator_strict_order_witness : app_dir_of envReady = "/cfg" :=
  (C5_storage_locator_strict_order envReady).1 "/cfg" rfl

/-! ### C10 -/

/-- C10: when the platform config directory is unavailable and HOME is
set but not valid Unicode, the locator skips the HOME branch and
selects the emergency fallback ./data. -/
theorem C10_non_unicode_home_falls_to_data (env : Env)
    (ha : env.app_config_dir = none)
    (hh : env.home = some EnvVarValue.nonUnicode) :
    app_dir_of env = "./data" ∧
    sqlite_path_of env = pathJoin "./data" "alduin.db" := by
  have hd : app_dir_of env = "./data" := by
    unfold app_dir_of resolve_app_dir
    rw [ha, hh]
    rfl
  exact ⟨hd, by unfold sqlite_path_of; rw [hd]⟩

/-- Witness for C10 at a concrete world with a non-Unicode HOME. -/
theorem C10_non_unicode_home_falls_to_data_witness :
    app_dir_of envNonUnicodeHome = "./data" :=
  (C10_non_unicode_home_falls_to_data envNonUnicodeHome rfl rfl).1

/-! ### C9 -/

/-- C9 as stated is false on the code: at a world where the database
file never appears, the fatal outcome is raised as a panic inside the
setup routine, not returned as the error variant of its result type. -/
theorem C9_counterexample :
    (setup envNever).2 = Outcome.panicked "Plugin database creation failed or path mismatch" ∧
    ∀ m, (setup envNever).2 ≠ Outcome.err m := by
  have hs := @setup_wait_fail envNever rfl rfl
  rw [hs]
  exact ⟨rfl, fun m h => by cases h⟩

/-- C9 amended: FATAL outcomes are raised as panics inside the setup
routine itself; the routine never returns the distinguished error
variant of its result type, and when the database file never appears
the outcome is a panic. -/
theorem C9_fatal_raised_as_panic (env : Env) :
    (∀ m, (setup env).2 ≠ Outcome.err m) ∧
    ((∀ t, env.file_exists t = false) → ∃ m, (setup env).2 = Outcome.panicked m) := by
  constructor
  · intro m hm
    rcases setup_outcome env with h | ⟨m', h⟩ <;> rw [h] at hm <;> cases hm
  · intro hnever
    rw [setup_wait_fail (hnever 1000) (hnever 3000)]
    exact ⟨_, rfl⟩

/-- Witness for the amended C9 at a concrete world whose database file
never appears. -/
theorem C9_fatal_raised_as_panic_witness :
    ∃ m, (setup envNever).2 = Outcome.panicked m :=
  (C9_fatal_raised_as_panic envNever).2 (fun _ => rfl)

lemma sleepsOf_append (a b : List Event) : sleepsOf (a ++ b) = sleepsOf a ++ sleepsOf b :=
  List.filterMap_append ..

lemma sleepsOf_waitFailTrace (sp : FsPath) : sleepsOf (waitFailTrace sp) = [1000, 2000] := rfl

/-! ### C1 -/

/-- C1: if the database file never appears, the setup routine suspends
for exactly two wait windows — 1000 ms, then the strictly longer
2000 ms — re-checking existence after each, makes no connection
attempt, and aborts by panic with the expected database file path in
the emitted error output. -/
theorem C1_two_windows_then_abort (env : Env)
    (hnever : ∀ t, env.file_exists t = false) :
    (setup env).2 = Outcome.panicked "Plugin database creation failed or path mismatch" ∧
    sleepsOf (setup env).1 = [1000, 2000] ∧ 1000 < 2000 ∧
    (∃ pre, (setup env).1 = pre ++ waitFailTrace (sqlite_path_of env) ∧ quietL pre) ∧
    (∀ k opts, Event.connectAttempt k opts ∉ (setup env).1) ∧
    (∃ m a b, Event.log m ∈ (setup env).1 ∧ m = a ++ sqlite_path_of env ++ b) := by
  have hs := setup_wait_fail (hnever 1000) (hnever 3000)
  refine ⟨by rw [hs], ?_, by decide,
    ⟨preQuiet env, by rw [hs], quiet_preQuiet env⟩, ?_, ?_⟩
  · rw [hs]
    show sleepsOf (preQuiet env ++ waitFailTrace (sqlite_path_of env)) = [1000, 2000]
    rw [sleepsOf_append, sleepsOf_quiet (quiet_preQuiet env), sleepsOf_waitFailTrace]
    rfl
  · intro k opts hmem
    rw [hs] at hmem
    replace hmem : Event.connectAttempt k opts ∈
        preQuiet env ++ waitFailTrace (sqlite_path_of env) := hmem
    rcases List.mem_append.1 hmem with h | h
    · have hq := quiet_preQuiet env _ h
      simp [Event.quiet] at hq
    · simp [waitFailTrace] at h
  · refine ⟨"❌ Expected location: " ++ pathDebug (sqlite_path_of env),
      "❌ Expected location: " ++ "\"", "\"", ?_, ?_⟩
    · rw [hs]
      show Event.log _ ∈ preQuiet env ++ waitFailTrace (sqlite_path_of env)
      simp [waitFailTrace]
    · simp [pathDebug, ← String.append_assoc]

/-- Witness for C1 at a concrete world whose database file never
appears. -/
theorem C1_two_windows_then_abort_witness :
    (setup envNever).2 = Outcome.panicked "Plugin database creation failed or path mismatch" :=
  (C1_two_windows_then_abort envNever (fun _ => rfl)).1

lemma attempt_not_mem_quiet {l : List Event} (h : quietL l) (k : Nat)
    (o : SqliteConnectOptions) : Event.connectAttempt k o ∉ l := by
  intro hm
  simpa [Event.quiet] using h _ hm

lemma attempt_not_mem_failDiag (env : Env) (j : Nat) (e : SqlxError) (sp : FsPath)
    (t : Nat) (k : Nat) (o : SqliteConnectOptions) :
    Event.connectAttempt k o ∉ failDiag env j e sp t :=
  attempt_not_mem_quiet (quiet_failDiag env j e sp t) k o

lemma attempt_not_mem_waitPhase (env : Env) (sp : FsPath) (k : Nat)
    (o : SqliteConnectOptions) : Event.connectAttempt k o ∉ (waitPhase env sp).1 := by
  cases h1 : env.file_exists 1000 with
  | true => rw [waitPhase_tt sp h1]; simp
  | false =>
      cases h3 : env.file_exists 3000 with
      | true => rw [waitPhase_ft sp h1 h3]; simp
      | false => rw [waitPhase_ff sp h1 h3]; simp [waitFailTrace]

lemma attempt_not_mem_publishEvents (k : Nat) (o : SqliteConnectOptions) :
    Event.connectAttempt k o ∉ publishEvents := by simp [publishEvents]

/-- Every connection-attempt event of the loop carries the options the
loop was given and an attempt number between 1 and the bound 3. -/
lemma attempt_mem_loop {env : Env} {opts : SqliteConnectOptions} {sp : FsPath} {t : Nat}
    {k : Nat} {o : SqliteConnectOptions}
    (h : Event.connectAttempt k o ∈ (connectLoop env opts sp 3 0 t).1) :
    o = opts ∧ 1 ≤ k ∧ k ≤ 3 := by
  rcases h1 : env.connect opts 1 with _ | e1
  · rw [connectLoop_succ1 opts sp t h1] at h
    simp [attemptHeader, attemptSuccessEvents] at h
    exact ⟨h.2, by omega⟩
  · rcases h2 : env.connect opts 2 with _ | e2
    · rw [connectLoop_succ2 opts sp t h1 h2] at h
      simp [attemptHeader, attemptSuccessEvents, retryEvents,
        attempt_not_mem_failDiag] at h
      rcases h with ⟨hk, ho⟩ | ⟨hk, ho⟩ <;> exact ⟨ho, by omega⟩
    · rcases h3 : env.connect opts 3 with _ | e3
      · rw [connectLoop_succ3 opts sp t h1 h2 h3] at h
        simp [attemptHeader, attemptSuccessEvents, retryEvents,
          attempt_not_mem_failDiag] at h
        rcases h with ⟨hk, ho⟩ | ⟨hk, ho⟩ | ⟨hk, ho⟩ <;> exact ⟨ho, by omega⟩
      · rw [connectLoop_fail opts sp t h1 h2 h3] at h
        simp [attemptHeader, attemptSuccessEvents, retryEvents,
          attempt_not_mem_failDiag] at h
        rcases h with ⟨hk, ho⟩ | ⟨hk, ho⟩ | ⟨hk, ho⟩ <;> exact ⟨ho, by omega⟩

/-- In a run that reaches the connection phase, every attempt event
uses the resolved options and a bounded attempt number. -/
lemma attempt_mem_reached {env : Env} {t : Nat} {k : Nat} {o : SqliteConnectOptions}
    (hw : (waitPhase env (sqlite_path_of env)).2 = .ok t)
    (h : Event.connectAttempt k o ∈ (setup env).1) :
    o = connect_options_of env ∧ 1 ≤ k ∧ k ≤ 3 := by
  cases hc : (connectLoop env (connect_options_of env) (sqlite_path_of env) 3 0 t).2 with
  | pool j =>
      rw [setup_reached_pool hw hc] at h
      simp only [List.append_assoc, List.mem_append, List.mem_cons, reduceCtorEq,
        attempt_not_mem_quiet (quiet_preQuiet env) k o,
        attempt_not_mem_waitPhase env (sqlite_path_of env) k o,
        attempt_not_mem_publishEvents k o, false_or, or_false] at h
      exact attempt_mem_loop h
  | panicked m =>
      rw [setup_reached_panic hw hc] at h
      simp only [List.append_assoc, List.mem_append, List.mem_cons, reduceCtorEq,
        attempt_not_mem_quiet (quiet_preQuiet env) k o,
        attempt_not_mem_waitPhase env (sqlite_path_of env) k o, false_or, or_false] at h
      exact attempt_mem_loop h

/-- Every connection-attempt event of a run uses the resolved options
and an attempt number between 1 and the bound 3. -/
lemma attempt_mem_setup {env : Env} {k : Nat} {o : SqliteConnectOptions}
    (h : Event.connectAttempt k o ∈ (setup env).1) :
    o = connect_options_of env ∧ 1 ≤ k ∧ k ≤ 3 := by
  cases h1 : env.file_exists 1000 with
  | true => exact attempt_mem_reached (by rw [waitPhase_tt _ h1]) h
  | false =>
      cases h3 : env.file_exists 3000 with
      | true => exact attempt_mem_reached (by rw [waitPhase_ft _ h1 h3]) h
      | false =>
          rw [setup_wait_fail h1 h3] at h
          replace h : Event.connectAttempt k o ∈
              preQuiet env ++ waitFailTrace (sqlite_path_of env) := h
          rcases List.mem_append.1 h with h | h
          · exact absurd h (attempt_not_mem_quiet (quiet_preQuiet env) k o)
          · simp [waitFailTrace] at h

lemma attemptNum_waitPhase (env : Env) (sp : FsPath) :
    ((waitPhase env sp).1).filterMap Event.attemptNum = [] := by
  cases h1 : env.file_exists 1000 with
  | true => rw [waitPhase_tt sp h1]; rfl
  | false =>
      cases h3 : env.file_exists 3000 with
      | true => rw [waitPhase_ft sp h1 h3]; rfl
      | false => rw [waitPhase_ff sp h1 h3]; rfl

lemma attemptsOf_wait_fail {env : Env} (h1 : env.file_exists 1000 = false)
    (h3 : env.file_exists 3000 = false) : attemptsOf env = [] := by
  unfold attemptsOf
  rw [setup_wait_fail h1 h3]
  show (preQuiet env ++ waitFailTrace (sqlite_path_of env)).filterMap Event.attemptNum = []
  rw [List.filterMap_append, attempts_quiet (quiet_preQuiet env), attemptNum_waitFailTrace]
  rfl

lemma attemptsOf_reached {env : Env} {t : Nat}
    (hw : (waitPhase env (sqlite_path_of env)).2 = .ok t) :
    attemptsOf env =
      ((connectLoop env (connect_options_of env) (sqlite_path_of env) 3 0 t).1).filterMap
        Event.attemptNum := by
  cases hc : (connectLoop env (connect_options_of env) (sqlite_path_of env) 3 0 t).2 with
  | pool j =>
      unfold attemptsOf
      rw [setup_reached_pool hw hc]
      simp [List.filterMap_append, attempts_quiet (quiet_preQuiet env),
        attemptNum_waitPhase, attemptNum_publishEvents, Event.attemptNum]
  | panicked m =>
      unfold attemptsOf
      rw [setup_reached_panic hw hc]
      simp [List.filterMap_append, attempts_quiet (quiet_preQuiet env),
        attemptNum_waitPhase, Event.attemptNum]

lemma loop_attempts_s1 {env : Env} {opts : SqliteConnectOptions} {sp : FsPath} {t : Nat}
    (h1 : env.connect opts 1 = none) :
    ((connectLoop env opts sp 3 0 t).1).filterMap Event.attemptNum = [1] := by
  rw [connectLoop_succ1 opts sp t h1]
  simp [List.filterMap_append, attemptNum_attemptHeader, attemptNum_attemptSuccessEvents]

lemma loop_attempts_s2 {env : Env} {opts : SqliteConnectOptions} {sp : FsPath} {t : Nat}
    {e1 : SqlxError} (h1 : env.connect opts 1 = some e1) (h2 : env.connect opts 2 = none) :
    ((connectLoop env opts sp 3 0 t).1).filterMap Event.attemptNum = [1, 2] := by
  rw [connectLoop_succ2 opts sp t h1 h2]
  simp [List.filterMap_append, attemptNum_attemptHeader, attemptNum_attemptSuccessEvents,
    attemptNum_retryEvents, attemptNum_failDiag]

lemma loop_attempts_s3 {env : Env} {opts : SqliteConnectOptions} {sp : FsPath} {t : Nat}
    {e1 e2 : SqlxError} (h1 : env.connect opts 1 = some e1)
    (h2 : env.connect opts 2 = some e2) (h3 : env.connect opts 3 = none) :
    ((connectLoop env opts sp 3 0 t).1).filterMap Event.attemptNum = [1, 2, 3] := by
  rw [connectLoop_succ3 opts sp t h1 h2 h3]
  simp [List.filterMap_append, attemptNum_attemptHeader, attemptNum_attemptSuccessEvents,
    attemptNum_retryEvents, attemptNum_failDiag]

lemma loop_attempts_fail {env : Env} {opts : SqliteConnectOptions} {sp : FsPath} {t : Nat}
    {e1 e2 e3 : SqlxError} (h1 : env.connect opts 1 = some e1)
    (h2 : env.connect opts 2 = some e2) (h3 : env.connect opts 3 = some e3) :
    ((connectLoop env opts sp 3 0 t).1).filterMap Event.attemptNum = [1, 2, 3] := by
  rw [connectLoop_fail opts sp t h1 h2 h3]
  simp [List.filterMap_append, attemptNum_attemptHeader, attemptNum_retryEvents,
    attemptNum_failDiag, Event.attemptNum]

lemma loop_attempts_cases (env : Env) (opts : SqliteConnectOptions) (sp : FsPath) (t : Nat) :
    ((connectLoop env opts sp 3 0 t).1).filterMap Event.attemptNum = [1] ∨
    ((connectLoop env opts sp 3 0 t).1).filterMap Event.attemptNum = [1, 2] ∨
    ((connectLoop env opts sp 3 0 t).1).filterMap Event.attemptNum = [1, 2, 3] := by
  rcases h1 : env.connect opts 1 with _ | e1
  · exact Or.inl (loop_attempts_s1 h1)
  · rcases h2 : env.connect opts 2 with _ | e2
    · exact Or.inr (Or.inl (loop_attempts_s2 h1 h2))
    · rcases h3 : env.connect opts 3 with _ | e3
      · exact Or.inr (Or.inr (loop_attempts_s3 h1 h2 h3))
      · exact Or.inr (Or.inr (loop_attempts_fail h1 h2 h3))

/-- A run reaching the waiting phase with the file present at either
re-check starts the connection phase. -/
lemma wait_ok_of_reach {env : Env}
    (hr : env.file_exists 1000 = true ∨ env.file_exists 3000 = true) :
    ∃ t, (waitPhase env (sqlite_path_of env)).2 = .ok t := by
  cases h1 : env.file_exists 1000 with
  | true => exact ⟨1000, by rw [waitPhase_tt _ h1]⟩
  | false =>
      rcases hr with h | h3
      · rw [h1] at h; cases h
      · exact ⟨3000, by rw [waitPhase_ft _ h1 h3]⟩

lemma envFlaky_loop :
    connectLoop envFlaky (connect_options_of envFlaky) (sqlite_path_of envFlaky) 3 0 1000 =
      (attemptHeader 1 3 (connect_options_of envFlaky) ++
        failDiag envFlaky 1 flakyErr (sqlite_path_of envFlaky) 1000 ++ retryEvents 1 ++
        (attemptHeader 2 3 (connect_options_of envFlaky) ++ attemptSuccessEvents 2),
       .pool 2) :=
  connectLoop_succ2 _ _ _ rfl rfl

lemma envFlaky_setup :
    setup envFlaky =
      (preQuiet envFlaky ++ [.sleep 1000, .checkExists 1000 true] ++
        Event.log "Connecting to plugin database..." ::
          (attemptHeader 1 3 (connect_options_of envFlaky) ++
            failDiag envFlaky 1 flakyErr (sqlite_path_of envFlaky) 1000 ++ retryEvents 1 ++
            (attemptHeader 2 3 (connect_options_of envFlaky) ++ attemptSuccessEvents 2)) ++
        publishEvents, .ok) := by
  have hwp : waitPhase envFlaky (sqlite_path_of envFlaky) =
      ([.sleep 1000, .checkExists 1000 true], .ok 1000) := waitPhase_tt _ rfl
  have hc : (connectLoop envFlaky (connect_options_of envFlaky)
      (sqlite_path_of envFlaky) 3 0 1000).2 = .pool 2 := by rw [envFlaky_loop]
  rw [setup_reached_pool (by rw [hwp]) hc, hwp, envFlaky_loop]

lemma envFlaky_attempt2_mem :
    Event.connectAttempt 2 (connect_options_of envFlaky) ∈ (setup envFlaky).1 := by
  rw [envFlaky_setup]
  simp [attemptHeader]

/-! ### C8 -/

/-- C8: the connection options are built from the resolved database
file path only and never enable create-if-missing; every connection
attempt of every run is made with exactly those options. -/
theorem C8_no_create_if_missing (env : Env) :
    (connect_options_of env).create_if_missing = false ∧
    (connect_options_of env).filename = sqlite_path_of env ∧
    (∀ k o, Event.connectAttempt k o ∈ (setup env).1 → o = connect_options_of env) := by
  refine ⟨rfl, rfl, ?_⟩
  intro k o h
  exact (attempt_mem_setup h).1

/-- Witness for C8: in a concrete flaky run, the options used by the
second (real) attempt are the resolved ones and carry no
create-if-missing. -/
theorem C8_no_create_if_missing_witness :
    connect_options_of envFlaky = connect_options_of envFlaky ∧
    (connect_options_of envFlaky).create_if_missing = false :=
  ⟨(C8_no_create_if_missing envFlaky).2.2 2 (connect_options_of envFlaky)
      envFlaky_attempt2_mem,
   (C8_no_create_if_missing envFlaky).1⟩

/-! ### C2 -/

/-- C2: the establisher makes at most 3 attempts; when the first
success is at attempt `k` (all earlier attempts failing) the run makes
exactly attempts 1..k and returns normally, so no attempt follows a
success; when every attempt would fail, the process panics. -/
theorem C2_bounded_attempts_first_success_stops (env : Env) :
    (attemptsOf env).length ≤ 3 ∧
    (∀ k, 1 ≤ k → k ≤ 3 →
      env.connect (connect_options_of env) k = none →
      (∀ j, 1 ≤ j → j < k → env.connect (connect_options_of env) j ≠ none) →
      (env.file_exists 1000 = true ∨ env.file_exists 3000 = true) →
      attemptsOf env = List.range' 1 k ∧ (setup env).2 = Outcome.ok) ∧
    ((∀ k, 1 ≤ k → k ≤ 3 → env.connect (connect_options_of env) k ≠ none) →
      ∃ m, (setup env).2 = Outcome.panicked m) := by
  refine ⟨?_, ?_, ?_⟩
  · cases h1 : env.file_exists 1000 with
    | true =>
        rw [attemptsOf_reached (by rw [waitPhase_tt _ h1])]
        rcases loop_attempts_cases env (connect_options_of env) (sqlite_path_of env) 1000
          with h | h | h <;> rw [h] <;> decide
    | false =>
        cases h3 : env.file_exists 3000 with
        | true =>
            rw [attemptsOf_reached (by rw [waitPhase_ft _ h1 h3])]
            rcases loop_attempts_cases env (connect_options_of env) (sqlite_path_of env) 3000
              with h | h | h <;> rw [h] <;> decide
        | false => rw [attemptsOf_wait_fail h1 h3]; decide
  · intro k hk1 hk3 hsucc hmin hr
    obtain ⟨t, hw⟩ := wait_ok_of_reach hr
    interval_cases k
    · have hc : (connectLoop env (connect_options_of env) (sqlite_path_of env) 3 0 t).2 =
          .pool 1 := by rw [connectLoop_succ1 _ _ _ hsucc]
      refine ⟨?_, by rw [setup_reached_pool hw hc]⟩
      rw [attemptsOf_reached hw, loop_attempts_s1 hsucc]
      decide
    · obtain ⟨e1, h1⟩ := Option.ne_none_iff_exists'.mp (hmin 1 (by omega) (by omega))
      have hc : (connectLoop env (connect_options_of env) (sqlite_path_of env) 3 0 t).2 =
          .pool 2 := by rw [connectLoop_succ2 _ _ _ h1 hsucc]
      refine ⟨?_, by rw [setup_reached_pool hw hc]⟩
      rw [attemptsOf_reached hw, loop_attempts_s2 h1 hsucc]
      decide
    · obtain ⟨e1, h1⟩ := Option.ne_none_iff_exists'.mp (hmin 1 (by omega) (by omega))
      obtain ⟨e2, h2⟩ := Option.ne_none_iff_exists'.mp (hmin 2 (by omega) (by omega))
      have hc : (connectLoop env (connect_options_of env) (sqlite_path_of env) 3 0 t).2 =
          .pool 3 := by rw [connectLoop_succ3 _ _ _ h1 h2 hsucc]
      refine ⟨?_, by rw [setup_reached_pool hw hc]⟩
      rw [attemptsOf_reached hw, loop_attempts_s3 h1 h2 hsucc]
      decide
  · intro hfail
    cases h1 : env.file_exists 1000 with
    | true =>
        obtain ⟨e1, he1⟩ := Option.ne_none_iff_exists'.mp (hfail 1 (by omega) (by omega))
        obtain ⟨e2, he2⟩ := Option.ne_none_iff_exists'.mp (hfail 2 (by omega) (by omega))
        obtain ⟨e3, he3⟩ := Option.ne_none_iff_exists'.mp (hfail 3 (by omega) (by omega))
        have hc : (connectLoop env (connect_options_of env) (sqlite_path_of env) 3 0 1000).2 =
            .panicked ("Failed to connect to SQLite after " ++ toString 3 ++ " attempts: " ++
              e3.display) := by rw [connectLoop_fail _ _ _ he1 he2 he3]
        exact ⟨_, by rw [setup_reached_panic (by rw [waitPhase_tt _ h1]) hc]⟩
    | false =>
        cases h3 : env.file_exists 3000 with
        | true =>
            obtain ⟨e1, he1⟩ := Option.ne_none_iff_exists'.mp (hfail 1 (by omega) (by omega))
            obtain ⟨e2, he2⟩ := Option.ne_none_iff_exists'.mp (hfail 2 (by omega) (by omega))
            obtain ⟨e3, he3⟩ := Option.ne_none_iff_exists'.mp (hfail 3 (by omega) (by omega))
            have hc : (connectLoop env (connect_options_of env)
                (sqlite_path_of env) 3 0 3000).2 =
                .panicked ("Failed to connect to SQLite after " ++ toString 3 ++
                  " attempts: " ++ e3.display) := by rw [connectLoop_fail _ _ _ he1 he2 he3]
            exact ⟨_, by rw [setup_reached_panic (by rw [waitPhase_ft _ h1 h3]) hc]⟩
        | false => exact ⟨_, by rw [setup_wait_fail h1 h3]⟩

/-- Witness for C2: in a concrete ready world, the first attempt
succeeds, the run makes exactly one attempt and returns normally. -/
theorem C2_bounded_attempts_first_success_stops_witness :
    attemptsOf envReady = List.range' 1 1 ∧ (setup envReady).2 = Outcome.ok :=
  (C2_bounded_attempts_first_success_stops envReady).2.1 1 (by omega) (by omega) rfl
    (fun j hj1 hj2 => absurd hj2 (by omega)) (Or.inl rfl)

lemma publish_not_mem_waitPhase (env : Env) (sp : FsPath) :
    Event.publish ∉ (waitPhase env sp).1 := by
  cases h1 : env.file_exists 1000 with
  | true => rw [waitPhase_tt sp h1]; simp
  | false =>
      cases h3 : env.file_exists 3000 with
      | true => rw [waitPhase_ft sp h1 h3]; simp
      | false => rw [waitPhase_ff sp h1 h3]; simp [waitFailTrace]

lemma publish_not_mem_loop (env : Env) (opts : SqliteConnectOptions) (sp : FsPath)
    (t : Nat) : Event.publish ∉ (connectLoop env opts sp 3 0 t).1 := by
  rcases h1 : env.connect opts 1 with _ | e1
  · rw [connectLoop_succ1 opts sp t h1]
    simp [attemptHeader, attemptSuccessEvents]
  · rcases h2 : env.connect opts 2 with _ | e2
    · rw [connectLoop_succ2 opts sp t h1 h2]
      simp [attemptHeader, attemptSuccessEvents, retryEvents, publish_not_mem_failDiag]
    · rcases h3 : env.connect opts 3 with _ | e3
      · rw [connectLoop_succ3 opts sp t h1 h2 h3]
        simp [attemptHeader, attemptSuccessEvents, retryEvents, publish_not_mem_failDiag]
      · rw [connectLoop_fail opts sp t h1 h2 h3]
        simp [attemptHeader, attemptSuccessEvents, retryEvents, publish_not_mem_failDiag]

lemma count_publish_zero {l : List Event} (h : Event.publish ∉ l) :
    l.count Event.publish = 0 := List.count_eq_zero.mpr h

/-- In the success trace the loop succeeded at some attempt whose
attempt event is in the loop trace. -/
lemma loop_succ_attempt_mem {env : Env} {opts : SqliteConnectOptions} {sp : FsPath}
    {t k : Nat} (hc : (connectLoop env opts sp 3 0 t).2 = .pool k) :
    Event.connectAttempt k opts ∈ (connectLoop env opts sp 3 0 t).1 ∧
      env.connect opts k = none := by
  rcases h1 : env.connect opts 1 with _ | e1
  · rw [connectLoop_succ1 opts sp t h1] at hc ⊢
    have hk : k = 1 := by simpa using hc.symm
    subst hk
    exact ⟨by simp [attemptHeader], h1⟩
  · rcases h2 : env.connect opts 2 with _ | e2
    · rw [connectLoop_succ2 opts sp t h1 h2] at hc ⊢
      have hk : k = 2 := by simpa using hc.symm
      subst hk
      exact ⟨by simp [attemptHeader], h2⟩
    · rcases h3 : env.connect opts 3 with _ | e3
      · rw [connectLoop_succ3 opts sp t h1 h2 h3] at hc ⊢
        have hk : k = 3 := by simpa using hc.symm
        subst hk
        exact ⟨by simp [attemptHeader], h3⟩
      · rw [connectLoop_fail opts sp t h1 h2 h3] at hc
        simp at hc

/-- The C3 properties in a run that reaches the connection phase. -/
lemma c3_reached {env : Env} {t : Nat}
    (hw : (waitPhase env (sqlite_path_of env)).2 = .ok t) :
    (setup env).1.count Event.publish ≤ 1 ∧
    ((setup env).1.count Event.publish = 1 ↔ (setup env).2 = Outcome.ok) ∧
    (∀ l₁ l₂, (setup env).1 = l₁ ++ Event.publish :: l₂ →
      ∃ k o, Event.connectAttempt k o ∈ l₁ ∧ env.connect o k = none) := by
  cases hc : (connectLoop env (connect_options_of env) (sqlite_path_of env) 3 0 t).2 with
  | panicked m =>
      have hs := setup_reached_panic hw hc
      have hnp : Event.publish ∉ (setup env).1 := by
        rw [hs]
        intro hm
        simp only [List.append_assoc, List.mem_append, List.mem_cons, reduceCtorEq,
          publish_not_mem_quiet (quiet_preQuiet env),
          publish_not_mem_waitPhase env (sqlite_path_of env),
          publish_not_mem_loop env (connect_options_of env) (sqlite_path_of env) t,
          false_or, or_false, or_self] at hm
      refine ⟨by simp [count_publish_zero hnp], ?_, ?_⟩
      · rw [count_publish_zero hnp, hs]
        simp
      · intro l₁ l₂ hsplit
        exact absurd
          (hsplit ▸ (by simp : Event.publish ∈ l₁ ++ Event.publish :: l₂)) hnp
  | pool k =>
      have hs := setup_reached_pool hw hc
      obtain ⟨hmem, hsucc⟩ := loop_succ_attempt_mem hc
      set A := preQuiet env ++ ((waitPhase env (sqlite_path_of env)).1 ++
        Event.log "Connecting to plugin database..." ::
          (connectLoop env (connect_options_of env) (sqlite_path_of env) 3 0 t).1)
        with hA
      have hs2 : (setup env).1 = A ++ publishEvents := by
        rw [hs, hA]
        simp [List.append_assoc]
      have hnpA : Event.publish ∉ A := by
        rw [hA]
        intro hm
        simp only [List.append_assoc, List.mem_append, List.mem_cons, reduceCtorEq,
          publish_not_mem_quiet (quiet_preQuiet env),
          publish_not_mem_waitPhase env (sqlite_path_of env),
          publish_not_mem_loop env (connect_options_of env) (sqlite_path_of env) t,
          false_or, or_false, or_self] at hm
      have hcount : (setup env).1.count Event.publish = 1 := by
        rw [hs2, List.count_append, count_publish_zero hnpA]
        decide
      refine ⟨by omega, ?_, ?_⟩
      · rw [hcount, hs]
        simp
      · intro l₁ l₂ hsplit
        have hcanon : (setup env).1 =
            (A ++ [Event.log "✅ Plugin database connection established!",
              Event.log "Registering unified database with app state..."]) ++
              Event.publish ::
                [Event.log "✅ Unified database registered with app state",
                 Event.log "=== UNIFIED DATABASE SETUP COMPLETE ==="] := by
          rw [hs2]
          simp [publishEvents, List.append_assoc]
        obtain ⟨hB, _⟩ := split_unique
          (A ++ [Event.log "✅ Plugin database connection established!",
            Event.log "Registering unified database with app state..."]) l₁
          (hcanon.symm.trans hsplit)
          (by
            intro hm
            rcases List.mem_append.1 hm with h | h
            · exact hnpA h
            · simp at h)
          (by simp)
        refine ⟨k, connect_options_of env, ?_, hsucc⟩
        rw [← hB, hA]
        exact List.mem_append_left _ (List.mem_append_right _ (List.mem_append_right _
          (List.mem_cons_of_mem _ hmem)))

/-! ### C3 -/

/-- C3: at most one publish of the connection handle happens per run,
it happens exactly when the run returns normally, and any publish is
preceded in the trace by a connection attempt that succeeded. -/
theorem C3_publish_once_only_after_success (env : Env) :
    (setup env).1.count Event.publish ≤ 1 ∧
    ((setup env).1.count Event.publish = 1 ↔ (setup env).2 = Outcome.ok) ∧
    (∀ l₁ l₂, (setup env).1 = l₁ ++ Event.publish :: l₂ →
      ∃ k o, Event.connectAttempt k o ∈ l₁ ∧ env.connect o k = none) := by
  cases h1 : env.file_exists 1000 with
  | false =>
      cases h3 : env.file_exists 3000 with
      | false =>
          have hs := setup_wait_fail h1 h3
          have hnp : Event.publish ∉ (setup env).1 := by
            rw [hs]
            intro hm
            replace hm : Event.publish ∈
                preQuiet env ++ waitFailTrace (sqlite_path_of env) := hm
            rcases List.mem_append.1 hm with h | h
            · exact publish_not_mem_quiet (quiet_preQuiet env) h
            · exact publish_not_mem_waitFailTrace _ h
          refine ⟨by rw [count_publish_zero hnp]; omega, ?_, ?_⟩
          · rw [count_publish_zero hnp, hs]
            constructor
            · intro h; cases h
            · intro h; cases h
          · intro l₁ l₂ hsplit
            exact absurd (hsplit ▸ (by simp : Event.publish ∈ l₁ ++ Event.publish :: l₂)) hnp
      | true => exact c3_reached (by rw [waitPhase_ft _ h1 h3])
  | true => exact c3_reached (by rw [waitPhase_tt _ h1])

/-- Witness for C3: the concrete ready run publishes exactly once. -/
theorem C3_publish_once_only_after_success_witness :
    (setup envReady).1.count Event.publish = 1 := by
  have hw : (waitPhase envReady (sqlite_path_of envReady)).2 = .ok 1000 := by
    rw [waitPhase_tt _ rfl]
  have hc : (connectLoop envReady (connect_options_of envReady)
      (sqlite_path_of envReady) 3 0 1000).2 = .pool 1 := by
    rw [connectLoop_succ1 _ _ _ rfl]
  exact (C3_publish_once_only_after_success envReady).2.1.mpr
    (by rw [setup_reached_pool hw hc])

/-! ### C6 -/

/-- C6: when all three connection attempts fail in a run that reaches
the connection phase, the process panics with a message carrying the
attempt bound and the last observed error, and no retry delay is slept
after the final failed attempt. -/
theorem C6_exhaustion_aborts_with_last_error (env : Env) {e1 e2 e3 : SqlxError}
    (hr : env.file_exists 1000 = true ∨ env.file_exists 3000 = true)
    (h1 : env.connect (connect_options_of env) 1 = some e1)
    (h2 : env.connect (connect_options_of env) 2 = some e2)
    (h3 : env.connect (connect_options_of env) 3 = some e3) :
    (setup env).2 = Outcome.panicked ("Failed to connect to SQLite after " ++ toString 3 ++
      " attempts: " ++ e3.display) ∧
    (∃ a b, "Failed to connect to SQLite after " ++ toString 3 ++ " attempts: " ++
      e3.display = a ++ toString 3 ++ b) ∧
    (∃ a b, "Failed to connect to SQLite after " ++ toString 3 ++ " attempts: " ++
      e3.display = a ++ e3.display ++ b) ∧
    (∀ o l₁ l₂, (setup env).1 = l₁ ++ Event.connectAttempt 3 o :: l₂ →
      ∀ ev ∈ l₂, ev.isSleep = false) := by
  obtain ⟨t, hw⟩ := wait_ok_of_reach hr
  have hloop := connectLoop_fail (connect_options_of env)
    (sqlite_path_of env) t h1 h2 h3
  have hc : (connectLoop env (connect_options_of env) (sqlite_path_of env) 3 0 t).2 =
      .panicked ("Failed to connect to SQLite after " ++ toString 3 ++ " attempts: " ++
        e3.display) := by rw [hloop]
  refine ⟨by rw [setup_reached_panic hw hc], ?_, ?_, ?_⟩
  · exact ⟨"Failed to connect to SQLite after ", " attempts: " ++ e3.display,
      by simp [String.append_assoc]⟩
  · exact ⟨"Failed to connect to SQLite after " ++ toString 3 ++ " attempts: ", "",
      by simp [String.append_assoc]⟩
  · intro o l₁ l₂ hsplit
    have hmem : Event.connectAttempt 3 o ∈ (setup env).1 :=
      hsplit ▸ (by simp : Event.connectAttempt 3 o ∈ l₁ ++ Event.connectAttempt 3 o :: l₂)
    obtain ⟨ho, -, -⟩ := attempt_mem_setup hmem
    subst ho
    have hcanon : (setup env).1 =
        (preQuiet env ++ ((waitPhase env (sqlite_path_of env)).1 ++
          Event.log "Connecting to plugin database..." ::
            (attemptHeader 1 3 (connect_options_of env) ++
              failDiag env 1 e1 (sqlite_path_of env) t ++ retryEvents 1 ++
              (attemptHeader 2 3 (connect_options_of env) ++
                failDiag env 2 e2 (sqlite_path_of env) (t + 100 * 1) ++ retryEvents 2 ++
                [Event.log ("Plugin database connection attempt " ++ toString 3 ++ "/" ++
                  toString 3)])))) ++
          Event.connectAttempt 3 (connect_options_of env) ::
            (failDiag env 3 e3 (sqlite_path_of env) (t + 100 * 1 + 100 * 2) ++
              [Event.log ("❌ All connection attempts failed. Final error: " ++
                e3.display)]) := by
      rw [setup_reached_panic hw hc, hloop]
      simp [attemptHeader, List.append_assoc]
    obtain ⟨-, hC⟩ := split_unique _ l₁ (hcanon.symm.trans hsplit)
      (by
        intro hm
        simp [attemptHeader, retryEvents,
          attempt_not_mem_quiet (quiet_preQuiet env) 3 (connect_options_of env),
          attempt_not_mem_waitPhase env (sqlite_path_of env) 3 (connect_options_of env),
          attempt_not_mem_failDiag env 1 e1 (sqlite_path_of env) t 3
            (connect_options_of env),
          attempt_not_mem_failDiag env 2 e2 (sqlite_path_of env) (t + 100 * 1) 3
            (connect_options_of env)] at hm)
      (by
        intro hm
        rcases List.mem_append.1 hm with h | h
        · exact attempt_not_mem_failDiag env 3 e3 (sqlite_path_of env)
            (t + 100 * 1 + 100 * 2) 3 (connect_options_of env) h
        · simp at h)
    intro ev hev
    rw [← hC] at hev
    rcases List.mem_append.1 hev with h | h
    · exact isSleep_false_of_quiet
        (quiet_failDiag env 3 e3 (sqlite_path_of env) (t + 100 * 1 + 100 * 2) ev h)
    · simp at h
      subst h
      rfl

/-- Witness for C6 at a concrete world where all attempts fail. -/
theorem C6_exhaustion_aborts_with_last_error_witness :
    (setup envFailAll).2 = Outcome.panicked ("Failed to connect to SQLite after " ++
      toString 3 ++ " attempts: " ++
      SqlxError.display (.other "unable to open database file")) :=
  (C6_exhaustion_aborts_with_last_error envFailAll (Or.inl rfl) rfl rfl rfl).1

lemma dropWhile_append_all {α : Type} {p : α → Bool} {A B : List α}
    (h : ∀ x ∈ A, p x = true) : (A ++ B).dropWhile p = B.dropWhile p := by
  induction A with
  | nil => rfl
  | cons a A ih =>
      have ha := h a (List.mem_cons_self a A)
      simp [List.dropWhile_cons, ha, ih (fun x hx => h x (List.mem_cons_of_mem _ hx))]

lemma dropWhile_cons_false {α : Type} {p : α → Bool} {a : α} (h : p a = false)
    (l : List α) : (a :: l).dropWhile p = a :: l := by
  simp [List.dropWhile_cons, h]

lemma notAttempt_of_quiet {e : Event} (h : e.quiet = true) : (!e.isAttempt) = true := by
  cases e <;> simp_all [Event.quiet, Event.isAttempt, Event.attemptNum]

lemma allNotAttempt_waitPhase (env : Env) (sp : FsPath) :
    ∀ x ∈ (waitPhase env sp).1, (!x.isAttempt) = true := by
  intro x hx
  cases h1 : env.file_exists 1000 with
  | true =>
      rw [waitPhase_tt sp h1] at hx
      simp at hx
      rcases hx with h | h <;> subst h <;> rfl
  | false =>
      cases h3 : env.file_exists 3000 with
      | true =>
          rw [waitPhase_ft sp h1 h3] at hx
          simp at hx
          rcases hx with h | h | h | h | h <;> subst h <;> rfl
      | false =>
          rw [waitPhase_ff sp h1 h3] at hx
          simp [waitFailTrace] at hx
          rcases hx with h | h | h | h | h | h | h <;> subst h <;> rfl

/-- The retry delays of a run are the sleeps of the loop tail that
follows the first connection attempt. -/
lemma retryDelays_eq {env : Env} {tail : List Event}
    (htr : (setup env).1 = (preQuiet env ++ ((waitPhase env (sqlite_path_of env)).1 ++
      [Event.log "Connecting to plugin database...",
       Event.log ("Plugin database connection attempt " ++ toString 1 ++ "/" ++
         toString 3)])) ++
      Event.connectAttempt 1 (connect_options_of env) :: tail) :
    retryDelays env = sleepsOf tail := by
  unfold retryDelays
  rw [htr]
  rw [dropWhile_append_all (by
    intro x hx
    rcases List.mem_append.1 hx with h | h
    · exact notAttempt_of_quiet (quiet_preQuiet env x h)
    · rcases List.mem_append.1 h with h | h
      · exact allNotAttempt_waitPhase env _ x h
      · simp at h
        rcases h with h | h <;> subst h <;> rfl)]
  rw [dropWhile_cons_false rfl]
  rfl

lemma retryDelays_wait_fail {env : Env} (h1 : env.file_exists 1000 = false)
    (h3 : env.file_exists 3000 = false) : retryDelays env = [] := by
  unfold retryDelays
  rw [setup_wait_fail h1 h3]
  have hall : (preQuiet env ++ waitFailTrace (sqlite_path_of env)).dropWhile
      (fun e => !e.isAttempt) = [] := by
    rw [List.dropWhile_eq_nil_iff]
    intro x hx
    rcases List.mem_append.1 hx with h | h
    · simpa using notAttempt_of_quiet (quiet_preQuiet env x h)
    · simp [waitFailTrace] at h
      rcases h with h | h | h | h | h | h | h <;> subst h <;> rfl
  show sleepsOf ((preQuiet env ++ waitFailTrace (sqlite_path_of env)).dropWhile
    (fun e => !e.isAttempt)) = []
  rw [hall]
  rfl

lemma retryDelays_reached_cases {env : Env} {t : Nat}
    (hw : (waitPhase env (sqlite_path_of env)).2 = .ok t) :
    retryDelays env = [] ∨ retryDelays env = [100] ∨ retryDelays env = [100, 200] := by
  rcases h1 : env.connect (connect_options_of env) 1 with _ | e1
  · left
    have hc : (connectLoop env (connect_options_of env) (sqlite_path_of env) 3 0 t).2 =
        .pool 1 := by rw [connectLoop_succ1 _ _ _ h1]
    have hre := @retryDelays_eq env
      (attemptSuccessEvents 1 ++ publishEvents) (by
        rw [setup_reached_pool hw hc, connectLoop_succ1 _ _ _ h1]
        simp [attemptHeader, List.append_assoc])
    rw [hre]
    rfl
  · rcases h2 : env.connect (connect_options_of env) 2 with _ | e2
    · right; left
      have hc : (connectLoop env (connect_options_of env) (sqlite_path_of env) 3 0 t).2 =
          .pool 2 := by rw [connectLoop_succ2 _ _ _ h1 h2]
      have hre := @retryDelays_eq env
        (failDiag env 1 e1 (sqlite_path_of env) t ++ retryEvents 1 ++
          (attemptHeader 2 3 (connect_options_of env) ++ attemptSuccessEvents 2) ++
          publishEvents) (by
          rw [setup_reached_pool hw hc, connectLoop_succ2 _ _ _ h1 h2]
          simp [attemptHeader, List.append_assoc])
      rw [hre]
      simp [sleepsOf, List.filterMap_append, sleepMs_failDiag, sleepMs_retryEvents,
        sleepMs_attemptHeader, sleepMs_attemptSuccessEvents, sleepMs_publishEvents,
        attemptHeader, retryEvents, Event.sleepMs]
    · rcases h3 : env.connect (connect_options_of env) 3 with _ | e3
      · right; right
        have hc : (connectLoop env (connect_options_of env)
            (sqlite_path_of env) 3 0 t).2 = .pool 3 := by
          rw [connectLoop_succ3 _ _ _ h1 h2 h3]
        have hre := @retryDelays_eq env
          (failDiag env 1 e1 (sqlite_path_of env) t ++ retryEvents 1 ++
            (attemptHeader 2 3 (connect_options_of env) ++
              failDiag env 2 e2 (sqlite_path_of env) (t + 100 * 1) ++ retryEvents 2 ++
              (attemptHeader 3 3 (connect_options_of env) ++ attemptSuccessEvents 3)) ++
            publishEvents) (by
            rw [setup_reached_pool hw hc, connectLoop_succ3 _ _ _ h1 h2 h3]
            simp [attemptHeader, List.append_assoc])
        rw [hre]
        simp [sleepsOf, List.filterMap_append, sleepMs_failDiag, sleepMs_retryEvents,
          sleepMs_attemptHeader, sleepMs_attemptSuccessEvents, sleepMs_publishEvents,
          attemptHeader, retryEvents, Event.sleepMs]
      · right; right
        have hc : (connectLoop env (connect_options_of env)
            (sqlite_path_of env) 3 0 t).2 =
            .panicked ("Failed to connect to SQLite after " ++ toString 3 ++
              " attempts: " ++ e3.display) := by
          rw [connectLoop_fail _ _ _ h1 h2 h3]
        have hre := @retryDelays_eq env
          (failDiag env 1 e1 (sqlite_path_of env) t ++ retryEvents 1 ++
            (attemptHeader 2 3 (connect_options_of env) ++
              failDiag env 2 e2 (sqlite_path_of env) (t + 100 * 1) ++ retryEvents 2 ++
              (attemptHeader 3 3 (connect_options_of env) ++
                failDiag env 3 e3 (sqlite_path_of env) (t + 100 * 1 + 100 * 2) ++
                [Event.log ("❌ All connection attempts failed. Final error: " ++
                  e3.display)]))) (by
            rw [setup_reached_panic hw hc, connectLoop_fail _ _ _ h1 h2 h3]
            simp [attemptHeader, List.append_assoc])
        rw [hre]
        simp [sleepsOf, List.filterMap_append, sleepMs_failDiag, sleepMs_retryEvents,
          sleepMs_attemptHeader, attemptHeader, retryEvents, Event.sleepMs]

lemma retryDelays_cases (env : Env) :
    retryDelays env = [] ∨ retryDelays env = [100] ∨ retryDelays env = [100, 200] := by
  cases h1f : env.file_exists 1000 with
  | true => exact retryDelays_reached_cases (by rw [waitPhase_tt _ h1f])
  | false =>
      cases h3f : env.file_exists 3000 with
      | true => exact retryDelays_reached_cases (by rw [waitPhase_ft _ h1f h3f])
      | false => exact Or.inl (retryDelays_wait_fail h1f h3f)

lemma mem_attemptsOf {env : Env} {k : Nat} {o : SqliteConnectOptions}
    (h : Event.connectAttempt k o ∈ (setup env).1) : k ∈ attemptsOf env :=
  List.mem_filterMap.2 ⟨_, h, rfl⟩

/-- In a run that reaches the connection phase, attempt k+1 is directly
preceded by the backoff sleep of 100·k ms. -/
lemma c7_split_reached {env : Env} {t k : Nat}
    (hw : (waitPhase env (sqlite_path_of env)).2 = .ok t)
    (hk : 1 ≤ k) (hkm : k + 1 ∈ attemptsOf env) :
    ∃ l₁ l₂, (setup env).1 =
      l₁ ++ Event.sleep (100 * k) ::
        (attemptHeader (k + 1) 3 (connect_options_of env) ++ l₂) := by
  rcases h1 : env.connect (connect_options_of env) 1 with _ | e1
  · rw [attemptsOf_reached hw, loop_attempts_s1 h1] at hkm
    simp at hkm
    omega
  · rcases h2 : env.connect (connect_options_of env) 2 with _ | e2
    · rw [attemptsOf_reached hw, loop_attempts_s2 h1 h2] at hkm
      have hk1 : k = 1 := by simp at hkm; omega
      subst hk1
      have hc : (connectLoop env (connect_options_of env) (sqlite_path_of env) 3 0 t).2 =
          .pool 2 := by rw [connectLoop_succ2 _ _ _ h1 h2]
      refine ⟨preQuiet env ++ ((waitPhase env (sqlite_path_of env)).1 ++
        Event.log "Connecting to plugin database..." ::
          (attemptHeader 1 3 (connect_options_of env) ++
            failDiag env 1 e1 (sqlite_path_of env) t ++
            [Event.log ("Retrying in " ++ toString (100 * 1) ++ "ms...")])),
        attemptSuccessEvents 2 ++ publishEvents, ?_⟩
      rw [setup_reached_pool hw hc, connectLoop_succ2 _ _ _ h1 h2]
      simp [attemptHeader, retryEvents, List.append_assoc]
    · rcases h3 : env.connect (connect_options_of env) 3 with _ | e3
      · rw [attemptsOf_reached hw, loop_attempts_s3 h1 h2 h3] at hkm
        have hc : (connectLoop env (connect_options_of env)
            (sqlite_path_of env) 3 0 t).2 = .pool 3 := by
          rw [connectLoop_succ3 _ _ _ h1 h2 h3]
        have hk12 : k = 1 ∨ k = 2 := by simp at hkm; omega
        rcases hk12 with hk1 | hk2
        · subst hk1
          refine ⟨preQuiet env ++ ((waitPhase env (sqlite_path_of env)).1 ++
            Event.log "Connecting to plugin database..." ::
              (attemptHeader 1 3 (connect_options_of env) ++
                failDiag env 1 e1 (sqlite_path_of env) t ++
                [Event.log ("Retrying in " ++ toString (100 * 1) ++ "ms...")])),
            failDiag env 2 e2 (sqlite_path_of env) (t + 100 * 1) ++ retryEvents 2 ++
              (attemptHeader 3 3 (connect_options_of env) ++ attemptSuccessEvents 3) ++
              publishEvents, ?_⟩
          rw [setup_reached_pool hw hc, connectLoop_succ3 _ _ _ h1 h2 h3]
          simp [attemptHeader, retryEvents, List.append_assoc]
        · subst hk2
          refine ⟨preQuiet env ++ ((waitPhase env (sqlite_path_of env)).1 ++
            Event.log "Connecting to plugin database..." ::
              (attemptHeader 1 3 (connect_options_of env) ++
                failDiag env 1 e1 (sqlite_path_of env) t ++ retryEvents 1 ++
                (attemptHeader 2 3 (connect_options_of env) ++
                  failDiag env 2 e2 (sqlite_path_of env) (t + 100 * 1) ++
                  [Event.log ("Retrying in " ++ toString (100 * 2) ++ "ms...")]))),
            attemptSuccessEvents 3 ++ publishEvents, ?_⟩
          rw [setup_reached_pool hw hc, connectLoop_succ3 _ _ _ h1 h2 h3]
          simp [attemptHeader, retryEvents, List.append_assoc]
      · rw [attemptsOf_reached hw, loop_attempts_fail h1 h2 h3] at hkm
        have hc : (connectLoop env (connect_options_of env)
            (sqlite_path_of env) 3 0 t).2 =
            .panicked ("Failed to connect to SQLite after " ++ toString 3 ++
              " attempts: " ++ e3.display) := by
          rw [connectLoop_fail _ _ _ h1 h2 h3]
        have hk12 : k = 1 ∨ k = 2 := by simp at hkm; omega
        rcases hk12 with hk1 | hk2
        · subst hk1
          refine ⟨preQuiet env ++ ((waitPhase env (sqlite_path_of env)).1 ++
            Event.log "Connecting to plugin database..." ::
              (attemptHeader 1 3 (connect_options_of env) ++
                failDiag env 1 e1 (sqlite_path_of env) t ++
                [Event.log ("Retrying in " ++ toString (100 * 1) ++ "ms...")])),
            failDiag env 2 e2 (sqlite_path_of env) (t + 100 * 1) ++ retryEvents 2 ++
              (attemptHeader 3 3 (connect_options_of env) ++
                failDiag env 3 e3 (sqlite_path_of env) (t + 100 * 1 + 100 * 2) ++
                [Event.log ("❌ All connection attempts failed. Final error: " ++
                  e3.display)]), ?_⟩
          rw [setup_reached_panic hw hc, connectLoop_fail _ _ _ h1 h2 h3]
          simp [attemptHeader, retryEvents, List.append_assoc]
        · subst hk2
          refine ⟨preQuiet env ++ ((waitPhase env (sqlite_path_of env)).1 ++
            Event.log "Connecting to plugin database..." ::
              (attemptHeader 1 3 (connect_options_of env) ++
                failDiag env 1 e1 (sqlite_path_of env) t ++ retryEvents 1 ++
                (attemptHeader 2 3 (connect_options_of env) ++
                  failDiag env 2 e2 (sqlite_path_of env) (t + 100 * 1) ++
                  [Event.log ("Retrying in " ++ toString (100 * 2) ++ "ms...")]))),
            failDiag env 3 e3 (sqlite_path_of env) (t + 100 * 1 + 100 * 2) ++
              [Event.log ("❌ All connection attempts failed. Final error: " ++
                e3.display)], ?_⟩
          rw [setup_reached_panic hw hc, connectLoop_fail _ _ _ h1 h2 h3]
          simp [attemptHeader, retryEvents, List.append_assoc]

/-! ### C7 -/

/-- C7: the retry delays are 100 ms times the number of the attempt
that just failed — so the possible delay sequences are exactly the
prefixes of 100, 200, a strictly increasing sequence — and whenever
attempt k+1 happens, the event directly before its header is the sleep
of 100·k ms. -/
theorem C7_backoff_linear_strictly_increasing (env : Env) :
    List.Chain' (fun a b => a < b) (retryDelays env) ∧
    (retryDelays env = [] ∨ retryDelays env = [100] ∨ retryDelays env = [100, 200]) ∧
    (∀ k o, 1 ≤ k → Event.connectAttempt (k + 1) o ∈ (setup env).1 →
      ∃ l₁ l₂, (setup env).1 =
        l₁ ++ Event.sleep (100 * k) :: (attemptHeader (k + 1) 3 o ++ l₂)) := by
  refine ⟨?_, retryDelays_cases env, ?_⟩
  · rcases retryDelays_cases env with h | h | h <;> rw [h] <;>
      simp [List.chain'_cons]
  · intro k o hk hmem
    obtain ⟨ho, -, hk3⟩ := attempt_mem_setup hmem
    subst ho
    have hkm : k + 1 ∈ attemptsOf env := mem_attemptsOf hmem
    cases h1f : env.file_exists 1000 with
    | false =>
        cases h3f : env.file_exists 3000 with
        | false =>
            rw [attemptsOf_wait_fail h1f h3f] at hkm
            simp at hkm
        | true => exact c7_split_reached (by rw [waitPhase_ft _ h1f h3f]) hk hkm
    | true => exact c7_split_reached (by rw [waitPhase_tt _ h1f]) hk hkm

/-- Witness for C7: in the concrete flaky run the second attempt is
directly preceded by the 100 ms backoff sleep. -/
theorem C7_backoff_linear_strictly_increasing_witness :
    ∃ l₁ l₂, (setup envFlaky).1 =
      l₁ ++ Event.sleep (100 * 1) ::
        (attemptHeader 2 3 (connect_options_of envFlaky) ++ l₂) :=
  (C7_backoff_linear_strictly_increasing envFlaky).2.2 1 (connect_options_of envFlaky)
    (le_refl 1) envFlaky_attempt2_mem

lemma controlTrace_cons_quiet {e : Event} (h : e.quiet = true) (l : List Event) :
    controlTrace (e :: l) = controlTrace l := by simp [controlTrace, h]

lemma controlTrace_cons_loud {e : Event} (h : e.quiet = false) (l : List Event) :
    controlTrace (e :: l) = e :: controlTrace l := by simp [controlTrace, h]

lemma controlTrace_failDiag (env : Env) (k : Nat) (e : SqlxError) (sp : FsPath) (t : Nat) :
    controlTrace (failDiag env k e sp t) = [] :=
  controlTrace_quiet (quiet_failDiag env k e sp t)

lemma controlTrace_publishEvents : controlTrace publishEvents = [Event.publish] := rfl

/-- Every member of a leading part that cannot contain the split
element lands in the left part of any split at that element. -/
lemma split_prefix {α : Type} {a : α} :
    ∀ (A : List α) {B l₁ l₂ : List α}, A ++ B = l₁ ++ a :: l₂ → a ∉ A →
      ∀ x ∈ A, x ∈ l₁ := by
  intro A
  induction A with
  | nil =>
      intro B l₁ l₂ h ha x hx
      cases hx
  | cons y ys ih =>
      intro B l₁ l₂ h ha x hx
      cases l₁ with
      | nil =>
          simp at h
          exact absurd (h.1 ▸ List.mem_cons_self y ys) ha
      | cons z zs =>
          simp at h
          obtain ⟨hyz, hrest⟩ := h
          rcases List.mem_cons.1 hx with rfl | hx
          · exact hyz ▸ List.mem_cons_self z zs
          · exact List.mem_cons_of_mem _
              (ih hrest (fun hm => ha (List.mem_cons_of_mem _ hm)) x hx)

lemma waitPhase_head (env : Env) (sp : FsPath) :
    ∃ tl, (waitPhase env sp).1 = Event.sleep 1000 :: tl := by
  cases h1 : env.file_exists 1000 with
  | true =>
      exact ⟨[Event.checkExists 1000 true], by rw [waitPhase_tt sp h1]⟩
  | false =>
      cases h3 : env.file_exists 3000 with
      | true =>
          exact ⟨[Event.checkExists 1000 false,
            Event.log "⚠️  Plugin database still not found, waiting longer...",
            Event.sleep 2000, Event.checkExists 3000 true], by rw [waitPhase_ft sp h1 h3]⟩
      | false =>
          exact ⟨[Event.checkExists 1000 false,
            Event.log "⚠️  Plugin database still not found, waiting longer...",
            Event.sleep 2000, Event.checkExists 3000 false,
            Event.log "❌ Plugin database not found after extended wait",
            Event.log ("❌ Expected location: " ++ pathDebug sp)],
            by rw [waitPhase_ff sp h1 h3]; rfl⟩

lemma setup_decomp (env : Env) :
    ∃ rest, (setup env).1 =
      preQuiet env ++ ((waitPhase env (sqlite_path_of env)).1 ++ rest) := by
  cases hw : (waitPhase env (sqlite_path_of env)).2 with
  | error m => exact ⟨[], by simp [setup, hw]⟩
  | ok t =>
      cases hcl : (connectLoop env (connect_options_of env)
          (sqlite_path_of env) 3 0 t).2 with
      | pool k =>
          exact ⟨Event.log "Connecting to plugin database..." ::
            ((connectLoop env (connect_options_of env)
              (sqlite_path_of env) 3 0 t).1 ++ publishEvents),
            by rw [setup_reached_pool hw hcl]; simp [List.append_assoc]⟩
      | panicked m =>
          exact ⟨Event.log "Connecting to plugin database..." ::
            (connectLoop env (connect_options_of env) (sqlite_path_of env) 3 0 t).1,
            by rw [setup_reached_panic hw hcl]; simp [List.append_assoc]⟩

lemma setup_sleep_head (env : Env) :
    ∃ post, (setup env).1 = preQuiet env ++ Event.sleep 1000 :: post := by
  obtain ⟨rest, hd⟩ := setup_decomp env
  obtain ⟨tl, hh⟩ := waitPhase_head env (sqlite_path_of env)
  exact ⟨tl ++ rest, by rw [hd, hh]; simp⟩

/-- Outcome and control trace agree between two worlds that differ only
in observational data, in runs reaching the connection phase at the
same elapsed time with the same wait trace. -/
lemma ctrl_congr_reached {env env2 : Env} {t : Nat}
    (hcon : env2.connect = env.connect)
    (hopt : connect_options_of env2 = connect_options_of env)
    (hw : (waitPhase env (sqlite_path_of env)).2 = .ok t)
    (hw2 : (waitPhase env2 (sqlite_path_of env2)).2 = .ok t)
    (hwtr : (waitPhase env2 (sqlite_path_of env2)).1 =
      (waitPhase env (sqlite_path_of env)).1) :
    (setup env2).2 = (setup env).2 ∧
      controlTrace (setup env2).1 = controlTrace (setup env).1 := by
  rcases h1 : env.connect (connect_options_of env) 1 with _ | e1
  · have h1' : env2.connect (connect_options_of env2) 1 = none := by rw [hcon, hopt, h1]
    have hcl : (connectLoop env (connect_options_of env)
        (sqlite_path_of env) 3 0 t).2 = .pool 1 := by rw [connectLoop_succ1 _ _ _ h1]
    have hcl2 : (connectLoop env2 (connect_options_of env2)
        (sqlite_path_of env2) 3 0 t).2 = .pool 1 := by rw [connectLoop_succ1 _ _ _ h1']
    rw [setup_reached_pool hw hcl, setup_reached_pool hw2 hcl2,
      connectLoop_succ1 _ _ _ h1, connectLoop_succ1 _ _ _ h1', hwtr, hopt]
    refine ⟨rfl, ?_⟩
    simp [List.append_assoc, controlTrace_append, controlTrace_cons_quiet,
      controlTrace_cons_loud, Event.quiet,
      controlTrace_quiet (quiet_preQuiet env), controlTrace_quiet (quiet_preQuiet env2),
      controlTrace_publishEvents, attemptHeader, attemptSuccessEvents]
  · have h1' : env2.connect (connect_options_of env2) 1 = some e1 := by
      rw [hcon, hopt, h1]
    rcases h2 : env.connect (connect_options_of env) 2 with _ | e2
    · have h2' : env2.connect (connect_options_of env2) 2 = none := by rw [hcon, hopt, h2]
      have hcl : (connectLoop env (connect_options_of env)
          (sqlite_path_of env) 3 0 t).2 = .pool 2 := by
        rw [connectLoop_succ2 _ _ _ h1 h2]
      have hcl2 : (connectLoop env2 (connect_options_of env2)
          (sqlite_path_of env2) 3 0 t).2 = .pool 2 := by
        rw [connectLoop_succ2 _ _ _ h1' h2']
      rw [setup_reached_pool hw hcl, setup_reached_pool hw2 hcl2,
        connectLoop_succ2 _ _ _ h1 h2, connectLoop_succ2 _ _ _ h1' h2', hwtr, hopt]
      refine ⟨rfl, ?_⟩
      simp [List.append_assoc, controlTrace_append, controlTrace_cons_quiet,
        controlTrace_cons_loud, Event.quiet,
        controlTrace_quiet (quiet_preQuiet env), controlTrace_quiet (quiet_preQuiet env2),
        controlTrace_failDiag, controlTrace_publishEvents, attemptHeader,
        attemptSuccessEvents, retryEvents]
    · have h2' : env2.connect (connect_options_of env2) 2 = some e2 := by
        rw [hcon, hopt, h2]
      rcases h3 : env.connect (connect_options_of env) 3 with _ | e3
      · have h3' : env2.connect (connect_options_of env2) 3 = none := by
          rw [hcon, hopt, h3]
        have hcl : (connectLoop env (connect_options_of env)
            (sqlite_path_of env) 3 0 t).2 = .pool 3 := by
          rw [connectLoop_succ3 _ _ _ h1 h2 h3]
        have hcl2 : (connectLoop env2 (connect_options_of env2)
            (sqlite_path_of env2) 3 0 t).2 = .pool 3 := by
          rw [connectLoop_succ3 _ _ _ h1' h2' h3']
        rw [setup_reached_pool hw hcl, setup_reached_pool hw2 hcl2,
          connectLoop_succ3 _ _ _ h1 h2 h3, connectLoop_succ3 _ _ _ h1' h2' h3',
          hwtr, hopt]
        refine ⟨rfl, ?_⟩
        simp [List.append_assoc, controlTrace_append, controlTrace_cons_quiet,
          controlTrace_cons_loud, Event.quiet,
          controlTrace_quiet (quiet_preQuiet env),
          controlTrace_quiet (quiet_preQuiet env2),
          controlTrace_failDiag, controlTrace_publishEvents, attemptHeader,
          attemptSuccessEvents, retryEvents]
      · have h3' : env2.connect (connect_options_of env2) 3 = some e3 := by
          rw [hcon, hopt, h3]
        have hcl : (connectLoop env (connect_options_of env)
            (sqlite_path_of env) 3 0 t).2 =
            .panicked ("Failed to connect to SQLite after " ++ toString 3 ++
              " attempts: " ++ e3.display) := by
          rw [connectLoop_fail _ _ _ h1 h2 h3]
        have hcl2 : (connectLoop env2 (connect_options_of env2)
            (sqlite_path_of env2) 3 0 t).2 =
            .panicked ("Failed to connect to SQLite after " ++ toString 3 ++
              " attempts: " ++ e3.display) := by
          rw [connectLoop_fail _ _ _ h1' h2' h3']
        rw [setup_reached_panic hw hcl, setup_reached_panic hw2 hcl2,
          connectLoop_fail _ _ _ h1 h2 h3, connectLoop_fail _ _ _ h1' h2' h3',
          hwtr, hopt]
        refine ⟨rfl, ?_⟩
        simp [List.append_assoc, controlTrace_append, controlTrace_cons_quiet,
          controlTrace_cons_loud, Event.quiet,
          controlTrace_quiet (quiet_preQuiet env),
          controlTrace_quiet (quiet_preQuiet env2),
          controlTrace_failDiag, attemptHeader, retryEvents]

/-! ### C4 -/

/-- C4: the first existence check never alters control flow — two
worlds that agree on the connection oracle, the resolution inputs, and
on file existence at every positive elapsed time (but may disagree at
time 0 and on all other purely logged data) produce the same outcome
and the same control trace; moreover every run suspends for the
unconditional first window before anything else, and every connection
attempt is preceded by that first wait window. -/
theorem C4_first_check_is_logging_only (env env2 : Env)
    (ha : env2.app_config_dir = env.app_config_dir)
    (hh : env2.home = env.home)
    (hcon : env2.connect = env.connect)
    (hf : ∀ u, 0 < u → env2.file_exists u = env.file_exists u) :
    ((setup env2).2 = (setup env).2 ∧
      controlTrace (setup env2).1 = controlTrace (setup env).1) ∧
    (∃ pre post, (setup env).1 = pre ++ Event.sleep 1000 :: post ∧ quietL pre) ∧
    (∀ k o l₁ l₂, (setup env).1 = l₁ ++ Event.connectAttempt k o :: l₂ →
      Event.sleep 1000 ∈ l₁) := by
  have hsp : sqlite_path_of env2 = sqlite_path_of env := by
    unfold sqlite_path_of app_dir_of
    rw [resolve_congr ha hh]
  have hopt : connect_options_of env2 = connect_options_of env := by
    unfold connect_options_of
    rw [hsp]
  have hf1 : env2.file_exists 1000 = env.file_exists 1000 := hf 1000 (by omega)
  have hf3 : env2.file_exists 3000 = env.file_exists 3000 := hf 3000 (by omega)
  refine ⟨?_, ?_, ?_⟩
  · cases h1 : env.file_exists 1000 with
    | true =>
        exact ctrl_congr_reached hcon hopt (by rw [waitPhase_tt _ h1])
          (by rw [waitPhase_tt _ (hf1.trans h1)])
          (by rw [waitPhase_tt _ h1, waitPhase_tt _ (hf1.trans h1)])
    | false =>
        cases h3 : env.file_exists 3000 with
        | true =>
            exact ctrl_congr_reached hcon hopt (by rw [waitPhase_ft _ h1 h3])
              (by rw [waitPhase_ft _ (hf1.trans h1) (hf3.trans h3)])
              (by rw [waitPhase_ft _ h1 h3,
                waitPhase_ft _ (hf1.trans h1) (hf3.trans h3)])
        | false =>
            have hs1 := setup_wait_fail h1 h3
            have hs2 := setup_wait_fail (hf1.trans h1) (hf3.trans h3)
            rw [hs1, hs2]
            refine ⟨rfl, ?_⟩
            simp [controlTrace_append,
              controlTrace_quiet (quiet_preQuiet env),
              controlTrace_quiet (quiet_preQuiet env2), waitFailTrace,
              controlTrace_cons_quiet, controlTrace_cons_loud, Event.quiet]
  · obtain ⟨post, hpost⟩ := setup_sleep_head env
    exact ⟨preQuiet env, post, hpost, quiet_preQuiet env⟩
  · intro k o l₁ l₂ hsplit
    obtain ⟨post, hpost⟩ := setup_sleep_head env
    have hform : (preQuiet env ++ [Event.sleep 1000]) ++ post =
        l₁ ++ Event.connectAttempt k o :: l₂ := by
      rw [← hsplit, hpost]
      simp
    exact split_prefix (preQuiet env ++ [Event.sleep 1000]) hform
      (by
        intro hm
        rcases List.mem_append.1 hm with h | h
        · exact attempt_not_mem_quiet (quiet_preQuiet env) k o h
        · simp at h)
      (Event.sleep 1000) (by simp)

/-- Witness for C4 at concrete worlds that differ exactly in the first
existence check and the logged metadata. -/
theorem C4_first_check_is_logging_only_witness :
    (setup envReadyAlt).2 = (setup envReady).2 :=
  (C4_first_check_is_logging_only envReady envReadyAlt rfl rfl rfl
    (fun _ hu => decide_eq_true hu)).1.1
